import Mathlib

/-!
Verification of the link-scoring and adaptive-crawl-parameter engine of the
professor-analysis crawler (`main.py`).

The Python source is shallowly embedded:

* Python `str` is Lean `String`; all character-level operations
  (lowercasing, substring search, splitting on whitespace, the regular
  expressions used by the scorer) are implemented as structural recursions
  over `List Char` so that every definition is executable and decidable.
* Python `float` scores are embedded as exact rationals (`ℚ`).  Every
  constant appearing in the scorer is a multiple of 1/2, hence exactly
  representable as an IEEE double, so the rational semantics coincides
  with the float semantics of the source.
* External collaborators (the HTTP fetch layer, BeautifulSoup DOM
  traversal, `urllib.parse.urljoin`, and the LLM classification calls)
  are modelled as oracle parameters, following the specification which
  declares them outside the core.  A fetched-and-parsed page is a
  `PageModel` carrying its anchors, the resolved effective base URL and
  the result of `analyze_page_structure`; DOM containment of an anchor in
  a navigation/footer/sidebar element is precomputed by the DOM
  collaborator into the `inNonContent` field of each anchor.
-/

/-- Python `str.startswith`, on explicit character lists. -/
def startsWithList : List Char → List Char → Bool
  | _, [] => true
  | [], _ :: _ => false
  | a :: as, b :: bs => a == b && startsWithList as bs

/-- Python substring test `needle in hay`, on explicit character lists. -/
def containsList : List Char → List Char → Bool
  | [], needle => needle.isEmpty
  | c :: rest, needle => startsWithList (c :: rest) needle || containsList rest needle

/-- Python `sub in hay` for strings. -/
def strHas (hay sub : String) : Bool :=
  containsList hay.data sub.data

/-- Python `s.startswith(p)` for strings. -/
def strStarts (s p : String) : Bool :=
  startsWithList s.data p.data

/-- Python `s.endswith(p)` for strings. -/
def strEnds (s p : String) : Bool :=
  startsWithList s.data.reverse p.data.reverse

/-- Python `str.lower` (ASCII case folding, as used on the ASCII keyword
lists of the source). -/
def lowerStr (s : String) : String :=
  ⟨s.data.map Char.toLower⟩

/-- Python `str.strip`: drop whitespace from both ends. -/
def stripStr (s : String) : String :=
  ⟨(((s.data.dropWhile Char.isWhitespace).reverse.dropWhile Char.isWhitespace).reverse)⟩

/-- Helper for `splitWs`: accumulate the current word (reversed) while
scanning the character list. -/
def splitWsAux : List Char → List Char → List String
  | [], acc => if acc.isEmpty then [] else [⟨acc.reverse⟩]
  | c :: rest, acc =>
    if c.isWhitespace then
      if acc.isEmpty then splitWsAux rest [] else ⟨acc.reverse⟩ :: splitWsAux rest []
    else splitWsAux rest (c :: acc)

/-- Python `str.split()` with no argument: split on whitespace runs,
discarding empty words. -/
def splitWs (s : String) : List String :=
  splitWsAux s.data []

/-- First character is an upper-case letter (`word[0].isupper()` in the
source; words produced by `splitWs` are never empty). -/
def headUpper (w : String) : Bool :=
  match w.data with
  | [] => false
  | c :: _ => c.isUpper

/-- Number of keywords of `kws` occurring as substrings of `t`
(`sum(1 for kw in kws if kw in t)` in the source). -/
def countContains (kws : List String) (t : String) : Nat :=
  (kws.filter (fun k => strHas t k)).length

/-- Academic title tokens of `calculate_name_likelihood`. -/
def academic_titles : List String :=
  ["dr.", "prof.", "professor", "dr", "prof"]

/-- Punctuation blacklist of `calculate_name_likelihood`. -/
def nameBadChars : List Char :=
  ['@', '#', '$', '%', '&', '*', '(', ')', '[', ']']

/-- Embedding of `calculate_name_likelihood` (main.py lines 884-920):
score how much `text` looks like a personal name, 0-4.  All arithmetic in
the source is on Python `int`, embedded as `ℤ`. -/
def calculate_name_likelihood (text : String) (is_academic_page : Bool) : Int :=
  if text.isEmpty || text.length > 50 then 0
  else
    let words := splitWs text
    let pairScore : Int :=
      if words.length = 2 then
        match words with
        | [first, last] =>
          if headUpper first && headUpper last && first.length > 1 && last.length > 1
          then 3 else 0
        | _ => 0
      else if words.length = 3 then
        if (words.filter (fun w => w.length > 1)).all headUpper then 2 else 0
      else 0
    let acadScore : Int :=
      if is_academic_page && words.length ≥ 2 then
        if (words.filter (fun w => w.length > 1)).all headUpper then 1 else 0
      else 0
    let titleScore : Int :=
      if academic_titles.any (fun t => strHas (lowerStr text) t) then 1 else 0
    let punctPenalty : Int :=
      if nameBadChars.any (fun c => text.data.contains c) then 2 else 0
    max 0 (min 4 (pairScore + acadScore + titleScore - punctPenalty))

/-- Region information computed by `analyze_page_structure` (main.py lines
674-707), as consumed by `detect_academic_page_type`: whether some
navigation element, respectively some content element, of the page
contains one of the academic keywords
faculty/professor/research/academic/department/college in its text.  The
DOM selector matching itself is the external HTML collaborator. -/
structure PageStructure where
  navHasAcademicText : Bool
  contentHasAcademicText : Bool
deriving DecidableEq

/-- An anchor tag as exposed by the DOM collaborator: stripped display
text, raw `href` attribute (`none` when absent), raw `rel` attribute, and
whether the anchor is a descendant of a navigation/footer/sidebar element
of `analyze_page_structure` (DOM containment is the collaborator's). -/
structure Anchor where
  text : String
  href : Option String
  rel : Option String
  inNonContent : Bool
deriving DecidableEq

/-- Embedding of `is_link_in_non_content_area` (main.py lines 710-716):
the DOM containment test is precomputed into `Anchor.inNonContent`. -/
def is_link_in_non_content_area (anchor : Anchor) (_page_structure : PageStructure) : Bool :=
  anchor.inNonContent

/-- URL substring patterns of `detect_academic_page_type`
(main.py lines 825-856), transcribed in source order. -/
def academic_url_patterns : List String :=
  ["faculty", "people", "staff", "edu/", "university", "college", "school", "department",
   "professor", "academic", "research", "scholar",
   ".edu", ".ac.",
   "stanford.edu", "harvard.edu", "mit.edu", "berkeley.edu", "ucla.edu", "columbia.edu",
   "yale.edu", "princeton.edu", "uchicago.edu", "upenn.edu", "cornell.edu", "brown.edu",
   "dartmouth.edu", "duke.edu", "northwestern.edu", "vanderbilt.edu", "rice.edu",
   "emory.edu", "georgetown.edu", "cmu.edu", "caltech.edu", "nyu.edu", "steinhardt.nyu.edu",
   "asc.upenn.edu", "wharton.upenn.edu", "seas.upenn.edu",
   "uc.edu", "csu.edu", "suny.edu", "cuny.edu", "ufl.edu", "fsu.edu", "uf.edu",
   "umich.edu", "msu.edu", "osu.edu", "psu.edu", "rutgers.edu", "umd.edu", "vt.edu",
   "unc.edu", "ncsu.edu", "clemson.edu", "sc.edu", "uga.edu", "gsu.edu", "fiu.edu",
   "ucf.edu", "usf.edu", "famu.edu", "fgcu.edu", "nova.edu", "barry.edu", "lynn.edu",
   "ox.ac.uk", "cam.ac.uk", "imperial.ac.uk", "ucl.ac.uk", "kcl.ac.uk", "lse.ac.uk",
   "ed.ac.uk", "manchester.ac.uk", "bristol.ac.uk", "warwick.ac.uk", "bath.ac.uk",
   "utoronto.ca", "ubc.ca", "mcgill.ca", "sfu.ca", "uvic.ca", "ualberta.ca",
   "anu.edu.au", "unsw.edu.au", "sydney.edu.au", "melbourne.edu.au", "monash.edu.au",
   "nus.edu.sg", "ntu.edu.sg", "hku.hk", "cuhk.edu.hk", "ust.hk",
   "cc.edu", "edu.", "academic", "institute", "consortium"]

/-- Embedding of `detect_academic_page_type` (main.py lines 823-881):
URL substring match against the academic pattern list, falling back to
requiring academic keywords in at least two distinct structural regions
(the source appends at most one indicator per region and only inspects
the navigation and content regions, so the count reaches 2 exactly when
both regions matched). -/
def detect_academic_page_type (base_url : String) (page_structure : PageStructure) : Bool :=
  let url_lower := lowerStr base_url
  if academic_url_patterns.any (fun p => strHas url_lower p) then true
  else page_structure.navHasAcademicText && page_structure.contentHasAcademicText

/-- Drop an expected literal from the front of a character list, returning
the remainder on success. -/
def dropLit : List Char → List Char → Option (List Char)
  | [], l => some l
  | _ :: _, [] => none
  | p :: ps, c :: cs => if p == c then dropLit ps cs else none

/-- Does the predicate hold of some suffix of the list?  This is
`re.search` for an end-anchored pattern: a match may begin at any
position and `p` checks the whole remaining suffix. -/
def anySuffix (p : List Char → Bool) : List Char → Bool
  | [] => p []
  | c :: rest => p (c :: rest) || anySuffix p rest

/-- Tail of regex 1: one or more digits, then an optional final slash,
then end of string (`\d+/?$` after at least one digit was seen). -/
def digitsTail : List Char → Bool
  | [] => true
  | ['/'] => true
  | c :: rest => c.isDigit && digitsTail rest

/-- Full match of regex 1 of the scorer, `/(user|profile|member)/\d+/?$`,
against a whole suffix. -/
def pat1Full (l : List Char) : Bool :=
  match l with
  | '/' :: rest =>
    ["user", "profile", "member"].any (fun w =>
      match dropLit w.data rest with
      | some ('/' :: c :: cs) => c.isDigit && digitsTail cs
      | _ => false)
  | _ => false

/-- Character class `[a-zA-Z\-_]` of regex 2. -/
def slugChar (c : Char) : Bool :=
  c.isAlpha || c == '-' || c == '_'

/-- Tail of regex 2: one or more slug characters already seen, continue
until an optional final slash and end of string. -/
def slugTail : List Char → Bool
  | [] => true
  | ['/'] => true
  | c :: rest => slugChar c && slugTail rest

/-- Full match of regex 2 of the scorer,
`/(people|faculty|staff|directory)/[a-zA-Z\-_]+/?$`, against a whole
suffix (the source applies it to the lower-cased href). -/
def pat2Full (l : List Char) : Bool :=
  match l with
  | '/' :: rest =>
    ["people", "faculty", "staff", "directory"].any (fun w =>
      match dropLit w.data rest with
      | some ('/' :: c :: cs) => slugChar c && slugTail cs
      | _ => false)
  | _ => false

/-- Separator class `[\-_\.]` of regex 3. -/
def sepChar (c : Char) : Bool :=
  c == '-' || c == '_' || c == '.'

/-- Scanner for regex 3 after the first separator: when `needAlpha` is
set a separator was just consumed and at least one letter must follow;
letters continue the current token, a separator starts a new token, and a
single final slash may end the string. -/
def pat3Scan (needAlpha : Bool) : List Char → Bool
  | [] => !needAlpha
  | c :: rest =>
    if c.isAlpha then pat3Scan false rest
    else if needAlpha then false
    else if sepChar c then pat3Scan true rest
    else c == '/' && rest.isEmpty

/-- First token of regex 3: consume letters until the mandatory first
separator, then hand over to `pat3Scan`. -/
def pat3After1 : List Char → Bool
  | [] => false
  | c :: rest =>
    if c.isAlpha then pat3After1 rest
    else sepChar c && pat3Scan true rest

/-- Full match of regex 3 of the scorer,
`/[a-zA-Z]+[\-_\.][a-zA-Z]+(?:[\-_\.][a-zA-Z]+)*/?$`, against a whole
suffix. -/
def pat3Full : List Char → Bool
  | '/' :: c :: rest => c.isAlpha && pat3After1 rest
  | _ => false

/-- Regex 1 of the scorer applied by `re.search` to the href. -/
def urlPattern1 (href : String) : Bool :=
  anySuffix pat1Full href.data

/-- Regex 2 of the scorer applied by `re.search` to the lower-cased href. -/
def urlPattern2 (hrefLower : String) : Bool :=
  anySuffix pat2Full hrefLower.data

/-- Regex 3 of the scorer applied by `re.search` to the href. -/
def urlPattern3 (href : String) : Bool :=
  anySuffix pat3Full href.data

/-- Python `href.split('/')[-1]`: the segment after the last slash (the
whole string when it has no slash). -/
def lastSlashSeg (href : String) : String :=
  ⟨(href.data.reverse.takeWhile (fun c => c ≠ '/')).reverse⟩

/-- Token count used with regex 3 (main.py lines 768-769): the last URL
segment with `-`, `_`, `.` replaced by spaces, split on whitespace. -/
def lastSegTokenCount (href : String) : Nat :=
  (splitWs ⟨(lastSlashSeg href).data.map (fun c => if sepChar c then ' ' else c)⟩).length

/-- Word character of Python's `\b` boundary: `[a-zA-Z0-9_]`. -/
def wordChar (c : Char) : Bool :=
  c.isAlphanum || c == '_'

/-- Degree literals generated by the alternation
`ph\.?d\.?|m\.?d\.?|m\.?s\.?|m\.?a\.?|b\.?a\.?|b\.?s\.?` with the leading
optional dot expanded; by backtracking, the trailing `\.?\b` accepts
exactly when the character after the core literal is a non-word character
or the end of the string, so the trailing dot needs no own literal. -/
def degreeCores : List String :=
  ["ph.d", "phd", "m.d", "md", "m.s", "ms", "m.a", "ma", "b.a", "ba", "b.s", "bs"]

/-- One degree core matches at the head of `l` with a word boundary after
it. -/
def degreeCoreAt (l : List Char) : Bool :=
  degreeCores.any (fun w =>
    match dropLit w.data l with
    | some [] => true
    | some (c :: _) => !wordChar c
    | none => false)

/-- Scan for the degree regex: `prevIsWord` tells whether the previous
character is a word character (initially false, the start-of-string
boundary). -/
def degreeScanFrom (prevIsWord : Bool) : List Char → Bool
  | [] => false
  | c :: rest =>
    (!prevIsWord && degreeCoreAt (c :: rest)) || degreeScanFrom (wordChar c) rest

/-- Embedding of the degree-information regex of the scorer
(main.py line 788), `re.search(r'\b(ph\.?d\.?|...)\b', text, re.I)` on
the already lower-cased anchor text. -/
def degreeMatch (t : String) : Bool :=
  degreeScanFrom false t.data

/-- Professor/faculty keyword list of `calculate_link_score`
(main.py lines 732-738). -/
def professor_keywords : List String :=
  ["faculty", "professor", "staff", "people", "members",
   "researchers", "team", "dr.", "ph.d", "phd", "associate professor",
   "assistant professor", "clinical professor", "emeritus", "lecturer",
   "instructor", "scholar", "academic", "researcher", "scientist",
   "chair", "director", "dean", "postdoc", "fellow"]

/-- Strong keyword subset of `calculate_link_score` (main.py line 739). -/
def strong_keywords : List String :=
  ["professor", "faculty", "dr.", "ph.d", "phd", "scholar"]

/-- URL keyword list of `calculate_link_score` (main.py line 747). -/
def url_keywords : List String :=
  ["faculty", "professor", "people", "staff", "members", "user", "profile", "directory"]

/-- Canonical academic path segments of `calculate_link_score`
(main.py line 748). -/
def academic_paths : List String :=
  ["/faculty/", "/people/", "/staff/", "/directory/", "/profiles/", "/bio/", "/academic/"]

/-- Blacklist keyword list of `calculate_link_score`
(main.py lines 797-802). -/
def blacklist_keywords : List String :=
  ["home", "about us", "contact us", "news", "events", "login", "search",
   "admin", "privacy", "terms", "cookie", "sitemap", "rss", "subscribe",
   "programs", "admissions", "tuition", "apply", "campus", "library",
   "calendar", "alumni", "give", "donate", "career", "job"]

/-- Bad URL pattern list of `calculate_link_score`
(main.py lines 808-811). -/
def bad_patterns : List String :=
  ["/admin/", "/login/", "/search/", "/api/", "/static/", "/css/", "/js/",
   "/assets/", "/images/", "/downloads/", "/resources/", "/forms/", "/application/"]

/-- Embedding of `calculate_link_score` (main.py lines 719-820): the
0-10 composite link score.  Python float arithmetic is embedded as exact
rational arithmetic; every constant is a multiple of 1/2, so the two
agree. -/
def calculate_link_score (anchor : Anchor) (href : String)
    (page_structure : PageStructure) (base_url : String) : ℚ :=
  let anchor_text := lowerStr anchor.text
  let original_anchor_text := anchor.text
  let is_academic_page := detect_academic_page_type base_url page_structure
  let keyword_matches := countContains professor_keywords anchor_text
  let strong_matches := countContains strong_keywords anchor_text
  let keywordTerm : ℚ := min ((keyword_matches : ℚ) * 0.5 + (strong_matches : ℚ)) 4
  let hrefLower := lowerStr href
  let urlKwTerm : ℚ := if url_keywords.any (fun k => strHas hrefLower k) then 2 else 0
  let acadPathTerm : ℚ := if academic_paths.any (fun p => strHas hrefLower p) then 1 else 0
  let patternTerm : ℚ :=
    if urlPattern1 href then 3
    else if urlPattern2 hrefLower then 3
    else if urlPattern3 href && lastSegTokenCount href ≥ 2 then 2
    else 0
  let name_score : ℚ := (calculate_name_likelihood original_anchor_text is_academic_page : ℚ)
  let acadNameTerm : ℚ :=
    if is_academic_page
        && (splitWs anchor_text).length = 2
        && professor_keywords.all (fun kw => !strHas anchor_text kw)
        && (splitWs anchor_text).all (fun w => w.length > 1)
    then 2 else 0
  let degreeTerm : ℚ := if is_academic_page && degreeMatch anchor_text then 1 else 0
  let positionTerm : ℚ := if is_link_in_non_content_area anchor page_structure then 1 else 0
  let blacklist_matches := countContains blacklist_keywords anchor_text
  let blacklistTerm : ℚ :=
    if blacklist_matches > 0 then min ((blacklist_matches : ℚ) * 1.5) 3 else 0
  let badUrlTerm : ℚ := if bad_patterns.any (fun p => strHas hrefLower p) then 3 else 0
  let score : ℚ :=
    1 + keywordTerm + urlKwTerm + acadPathTerm + patternTerm + name_score
      + acadNameTerm + degreeTerm - positionTerm - blacklistTerm - badUrlTerm
  max 0 (min 10 score)

/-- The anchor of the blacklisted-nav-link scenario: display text
"Contact Us", outside every navigation/footer/sidebar region. -/
def anchorContactUs : Anchor :=
  { text := "Contact Us", href := some "/contact", rel := none, inNonContent := false }

/-- A page structure with no academic keywords in its regions. -/
def psPlain : PageStructure :=
  { navHasAcademicText := false, contentHasAcademicText := false }

/-- The base URL of a generic (non-academic) page, so that the caller of
the scorer applies the generic threshold 2. -/
def genericBase : String := "https://example.org"

/-- One crawl-result record, with the fields produced by `process_link`
(main.py lines 571-581).  Python float confidence is embedded as `ℚ`. -/
structure ResultRecord where
  url : String
  professorName : String
  title : String
  department : String
  isProfessorPage : String
  researchInterests : String
  keywords : List String
  additionalUrls : List String
  confidenceScore : ℚ

/-- Parameter adjustment decided by the adaptive controller
(main.py lines 1597-1602); the human-readable `reason` string of the
source, purely diagnostic, is omitted. -/
structure Adjustment where
  should_adjust : Bool
  new_max_links : Nat
  new_max_pages : Nat
deriving DecidableEq

/-- Embedding of `analyze_results_and_adjust_params`
(main.py lines 1586-1641): inspect first-pass results and decide whether
to re-crawl with a wider budget.  The fourth source branch (high rate and
already-broad search) only sets a reason and leaves the budget and the
`should_adjust=False` default unchanged, so it produces the same record
as the default; it is kept as an explicit branch.  Budgets are the
positive integers of the data model, embedded as `Nat`. -/
def analyze_results_and_adjust_params (results : List ResultRecord)
    (current_max_links current_max_pages : Nat) : Adjustment :=
  let professor_count := (results.filter (fun r => r.isProfessorPage == "Yes")).length
  let total_results := results.length
  let professor_rate : ℚ :=
    if total_results > 0 then (professor_count : ℚ) / (total_results : ℚ) else 0
  if professor_count = 0 then
    { should_adjust := true,
      new_max_links := min (current_max_links * 2) 100,
      new_max_pages := min (current_max_pages + 2) 8 }
  else if professor_count < 20 ∧ professor_rate > 0.4 then
    { should_adjust := true,
      new_max_links := min (current_max_links * 2) 100,
      new_max_pages := min (current_max_pages + 1) 6 }
  else if professor_count < 5 ∧ professor_rate < 0.2 then
    { should_adjust := true,
      new_max_links := min (current_max_links + 20) 80,
      new_max_pages := min (current_max_pages + 1) 6 }
  else if professor_rate > 0.8 ∧ current_max_links > 60 then
    { should_adjust := false,
      new_max_links := current_max_links,
      new_max_pages := current_max_pages }
  else
    { should_adjust := false,
      new_max_links := current_max_links,
      new_max_pages := current_max_pages }

/-- A non-professor result record, used to instantiate scenario claims. -/
def recordNo : ResultRecord :=
  { url := "", professorName := "", title := "", department := "",
    isProfessorPage := "No", researchInterests := "", keywords := [],
    additionalUrls := [], confidenceScore := 0 }

/-- Page characterization produced by `analyze_page_characteristics`
(main.py lines 1190-1263); the recommender reads `page_type` and
`total_links`. -/
structure PageAnalysis where
  page_type : String
  estimated_scale : String
  has_search_filters : Bool
  total_links : Nat
  content_depth : String

/-- Pagination characterization produced by `analyze_pagination_structure`
(main.py lines 1266-1327). -/
structure PaginationInfo where
  has_pagination : Bool
  pagination_type : String
  estimated_total_pages : Nat
  items_per_page : Nat

/-- Budget recommendation returned by `generate_parameter_recommendations`
(main.py lines 1425-1432); the diagnostic `reasoning` string is omitted. -/
structure Recommendation where
  max_links : Nat
  max_pages : Nat
  page_type : String
  professor_density : ℚ
  pagination_detected : Bool

/-- Embedding of `generate_parameter_recommendations`
(main.py lines 1357-1432): sequential refinement of the default budget
(30, 3) by page type, professor-link density, pagination and page scale,
finishing with the safety clamp to `[10,100] × [1,10]`. -/
def generate_parameter_recommendations (page_analysis : PageAnalysis)
    (pagination_info : PaginationInfo) (professor_density : ℚ) : Recommendation :=
  let ml1 : Nat :=
    if page_analysis.page_type = "department" then 20
    else if page_analysis.page_type = "college" then 50
    else if page_analysis.page_type = "nyu_steinhardt" then 60
    else 30
  let ml2 : Nat :=
    if professor_density > 0.5 then max ml1 60
    else if professor_density > 0.3 then max ml1 40
    else if professor_density < 0.1 then max ml1 50
    else ml1
  let mp3 : Nat :=
    if pagination_info.has_pagination then
      if pagination_info.estimated_total_pages ≤ 3 then pagination_info.estimated_total_pages
      else if pagination_info.estimated_total_pages ≤ 10 then
        min 5 pagination_info.estimated_total_pages
      else 3
    else 1
  let ml4 : Nat :=
    if page_analysis.total_links > 200 then
      if (page_analysis.page_type = "nyu_steinhardt" ∨ page_analysis.page_type = "faculty_list"
            ∨ page_analysis.page_type = "college") ∧ professor_density > 0.5 then
        ml2
      else min ml2 40
    else if page_analysis.total_links < 50 then max ml2 15
    else ml2
  { max_links := max 10 (min 100 ml4),
    max_pages := max 1 (min 10 mp3),
    page_type := page_analysis.page_type,
    professor_density := professor_density,
    pagination_detected := pagination_info.has_pagination }

def resolveHref (uj : String → String → String) (base href : String) : String :=
  if strStarts href "http://" || strStarts href "https://" then href else uj base href

def nextTexts : List String := ["next", "next page", ">", "»", "下一页"]

def detectNextFallback (uj : String → String → String) (anchors : List Anchor)
    (base_url : String) : Option String :=
  match anchors.find? (fun a => a.href.isSome && nextTexts.contains (lowerStr a.text)) with
  | some a =>
    match a.href with
    | some h => some (resolveHref uj base_url h)
    | none => none
  | none => none

def detect_next_page (uj : String → String → String) (anchors : List Anchor)
    (base_url : String) : Option String :=
  match anchors.find? (fun a =>
      match a.rel with
      | some r => strHas (lowerStr r) "next"
      | none => false) with
  | some a =>
    match a.href with
    | some h =>
      if h = "" then detectNextFallback uj anchors base_url
      else some (resolveHref uj base_url h)
    | none => detectNextFallback uj anchors base_url
  | none => detectNextFallback uj anchors base_url

structure PageModel where
  anchors : List Anchor
  baseUrl : String
  ps : PageStructure

def skipSchemes : List String := ["javascript:", "mailto:", "tel:", "#"]

def fileExtDenylist : List String :=
  [".pdf", ".jpg", ".jpeg", ".png", ".gif", ".zip", ".doc", ".docx", ".ppt", ".pptx"]

def pageLinks (uj : String → String → String) (page : PageModel) : List (String × ℚ) :=
  page.anchors.filterMap (fun anchor =>
    match anchor.href with
    | none => none
    | some rawHref =>
      let href0 := stripStr rawHref
      if href0 = "" || skipSchemes.any (fun p => strStarts href0 p) then none
      else
        let href := resolveHref uj page.baseUrl href0
        if fileExtDenylist.any (fun e => strEnds (lowerStr href) e) then none
        else
          let score := calculate_link_score anchor href page.ps page.baseUrl
          let is_academic_page := detect_academic_page_type page.baseUrl page.ps
          let threshold : ℚ := if is_academic_page then 1.5 else 2
          if score > threshold then some (href, score) else none)

def optToList : Option String → List String
  | some x => [x]
  | none => []

def paginationCandidate (uj : String → String → String) (follow_pagination : Bool)
    (page : PageModel) (visited : List String) : Option String :=
  if follow_pagination then
    match detect_next_page uj page.anchors page.baseUrl with
    | some nxt => if nxt ∈ visited then none else some nxt
    | none => none
  else none

structure CrawlOut where
  collected : List (String × ℚ)
  fetched : List String

def crawlLoop (web : String → Option PageModel) (uj : String → String → String)
    (follow_pagination : Bool) (max_pages : Nat)
    (toVisit visited : List String) (collected : List (String × ℚ))
    (page_count : Nat) (fetched : List String) : CrawlOut :=
  match toVisit with
  | [] => ⟨collected, fetched⟩
  | current :: rest =>
    if h : page_count < max_pages then
      if current ∈ visited then
        crawlLoop web uj follow_pagination max_pages rest visited collected page_count fetched
      else
        match web current with
        | none =>
          crawlLoop web uj follow_pagination max_pages rest (current :: visited) collected
            page_count fetched
        | some page =>
          crawlLoop web uj follow_pagination max_pages
            (rest ++ optToList (paginationCandidate uj follow_pagination page (current :: visited)))
            (current :: visited) (collected ++ pageLinks uj page) (page_count + 1)
            (fetched ++ [current])
    else ⟨collected, fetched⟩
termination_by toVisit.length + 2 * (max_pages - page_count)
decreasing_by
  · simp only [List.length_cons]; omega
  · simp only [List.length_cons]; omega
  · rcases hc : paginationCandidate uj follow_pagination page (current :: visited) with _ | x <;>
      simp only [hc, optToList, List.length_append, List.length_cons, List.length_nil] <;>
      omega

def crawlRun (web : String → Option PageModel) (uj : String → String → String)
    (url : String) (follow_pagination : Bool) (max_pages : Nat) : CrawlOut :=
  crawlLoop web uj follow_pagination max_pages [url] [] [] 0 []

def scoreGe (a b : String × ℚ) : Prop := b.2 ≤ a.2

instance : DecidableRel scoreGe := fun a b => inferInstanceAs (Decidable (b.2 ≤ a.2))

instance : IsTotal (String × ℚ) scoreGe := ⟨fun a b => le_total b.2 a.2⟩

instance : IsTrans (String × ℚ) scoreGe := ⟨fun _ _ _ h1 h2 => le_trans h2 h1⟩

def dedupLinks : List (String × ℚ) → List String → List String
  | [], _ => []
  | (link, _) :: rest, seen =>
    if link ∈ seen then dedupLinks rest seen
    else link :: dedupLinks rest (link :: seen)

def dedupPairs : List (String × ℚ) → List String → List (String × ℚ)
  | [], _ => []
  | (link, score) :: rest, seen =>
    if link ∈ seen then dedupPairs rest seen
    else (link, score) :: dedupPairs rest (link :: seen)

def get_all_links (web : String → Option PageModel) (uj : String → String → String)
    (url : String) (follow_pagination : Bool) (max_pages : Nat) : List String :=
  dedupLinks
    (List.insertionSort scoreGe (crawlRun web uj url follow_pagination max_pages).collected) []

/-- Structured classification of one candidate page by the LLM
collaborator (`is_professor_webpage`, main.py lines 210-351): extracted
name, title, department and confidence. -/
structure ProfInfo where
  name : String
  title : String
  department : String
  confidence : ℚ

/-- Research profile of one professor page from the LLM collaborator
(`get_research_interests`, main.py lines 354-518). -/
structure ResearchData where
  interests : String
  keywords : List String
  additionalUrls : List String

/-- Embedding of `get_client` (main.py lines 25-39): an empty API key
raises `ValueError`; otherwise the client is constructed. -/
def get_client (api_key : String) : Except String Unit :=
  if api_key = "" then Except.error "ValueError: 必须提供API密钥"
  else Except.ok ()

/-- Embedding of `process_link` (main.py lines 559-587).  The oracle
`classify` models the outcome of `is_professor_webpage` for a link:
`some (is_professor, info)` for a completed classification and `none`
for a per-link exception (caught by the source's `except`, which returns
`None`).  A link classified as non-professor also yields `None`
("非教授页面不返回结果").  Only a confirmed professor page produces a
record, with "Is Professor Page" set to "Yes". -/
def process_link (classify : String → Option (Bool × ProfInfo))
    (research : String → ResearchData) (link : String) : Option ResultRecord :=
  match classify link with
  | none => none
  | some (is_professor, prof_info) =>
    if is_professor then
      let research_data := research link
      some { url := link, professorName := prof_info.name, title := prof_info.title,
             department := prof_info.department, isProfessorPage := "Yes",
             researchInterests := research_data.interests,
             keywords := research_data.keywords,
             additionalUrls := research_data.additionalUrls,
             confidenceScore := prof_info.confidence }
    else none

/-- Embedding of `analyze_webpage_links` (main.py lines 590-671): check
the API key, collect candidate links (pagination on, truncated to
`max_links`), and process each link, keeping only the non-`None`
results.  The worker pool completes futures in nondeterministic order;
the result collection is modelled in submission order, which fixes the
same result-set membership.  `max_workers` only sizes the pool and is
unused by the control flow. -/
def analyze_webpage_links (web : String → Option PageModel)
    (uj : String → String → String)
    (classify : String → Option (Bool × ProfInfo)) (research : String → ResearchData)
    (start_url api_key : String)
    (max_links : Nat) (_max_workers : Nat) (max_pages : Nat) :
    Except String (List ResultRecord) :=
  if api_key = "" then Except.error "ValueError: 必须提供API密钥才能执行分析"
  else
    match get_client api_key with
    | Except.error e => Except.error e
    | Except.ok _ =>
      let all_links := (get_all_links web uj start_url true max_pages).take max_links
      if all_links = [] then Except.ok []
      else Except.ok (all_links.filterMap (process_link classify research))

/-- Value of the scorer on the "Contact Us" anchor of the scenario: the
base +1 and the two-capitalized-words name bonus +3 are reduced only by
the single blacklist match ("contact us", -1.5), giving 2.5. -/
theorem contactUs_score_eval :
    calculate_link_score anchorContactUs "https://example.edu/contact" psPlain genericBase
      = 5 / 2 := by
  have h1 : detect_academic_page_type genericBase psPlain = false := by decide
  have h2 : calculate_name_likelihood "Contact Us" false = 3 := by decide
  have h3 : countContains professor_keywords (lowerStr "Contact Us") = 0 := by decide
  have h4 : countContains strong_keywords (lowerStr "Contact Us") = 0 := by decide
  have h5 : url_keywords.any (fun k => strHas (lowerStr "https://example.edu/contact") k)
      = false := by decide
  have h6 : academic_paths.any (fun p => strHas (lowerStr "https://example.edu/contact") p)
      = false := by decide
  have h7 : urlPattern1 "https://example.edu/contact" = false := by decide
  have h8 : urlPattern2 (lowerStr "https://example.edu/contact") = false := by decide
  have h9 : urlPattern3 "https://example.edu/contact" = false := by decide
  have h10 : countContains blacklist_keywords (lowerStr "Contact Us") = 1 := by decide
  have h11 : bad_patterns.any (fun p => strHas (lowerStr "https://example.edu/contact") p)
      = false := by decide
  norm_num [calculate_link_score, anchorContactUs, h1, h2, h3, h4, h5, h6, h7, h8, h9, h10, h11,
    is_link_in_non_content_area]

/-- C1, counterexample: the claim asserts that the "Contact Us" anchor
pointing at `https://example.edu/contact`, outside every
navigation/footer/sidebar region, scores at or below the generic
threshold 2.  On the code it scores 2.5: the two-capitalized-words name
bonus (+3) outweighs the single blacklist penalty (-1.5). -/
theorem contact_us_link_not_excluded_cex :
    ¬ (calculate_link_score anchorContactUs "https://example.edu/contact" psPlain genericBase
        ≤ 2) := by
  rw [contactUs_score_eval]; norm_num

/-- C1, amended: the "Contact Us" anchor with href
`https://example.edu/contact`, outside every navigation/footer/sidebar
region on a generic page, scores exactly 2.5, which exceeds the generic
threshold 2, so the caller's threshold filter retains (does not exclude)
the link. -/
theorem contact_us_link_score_amended :
    calculate_link_score anchorContactUs "https://example.edu/contact" psPlain genericBase
        = 5 / 2
      ∧ 2 < calculate_link_score anchorContactUs "https://example.edu/contact" psPlain
          genericBase := by
  refine ⟨contactUs_score_eval, ?_⟩
  rw [contactUs_score_eval]; norm_num

/-- C2: for every anchor, href, page-structure region set and base URL,
`calculate_link_score` returns a value between 0 and 10: the source ends
with `max(0, min(10, score))`. -/
theorem calculate_link_score_bounds (anchor : Anchor) (href : String)
    (page_structure : PageStructure) (base_url : String) :
    0 ≤ calculate_link_score anchor href page_structure base_url
      ∧ calculate_link_score anchor href page_structure base_url ≤ 10 := by
  simp only [calculate_link_score]
  exact ⟨le_max_left 0 _, max_le (by norm_num) (min_le_left _ _)⟩

/-- C10: `calculate_name_likelihood` returns 0 whenever the input text is
empty or longer than 50 characters, for every academic-page flag. -/
theorem name_likelihood_zero_on_degenerate_text (text : String) (acad : Bool)
    (h : text = "" ∨ 50 < text.length) :
    calculate_name_likelihood text acad = 0 := by
  unfold calculate_name_likelihood
  rcases h with h | h
  · subst h; rfl
  · have : text.length > 50 := h
    simp [this]

/-- Witness for C10 at a concrete 51-character text and at the empty text. -/
theorem name_likelihood_zero_on_degenerate_text_witness :
    calculate_name_likelihood "" true = 0 ∧
      calculate_name_likelihood "aaaaaaaaaaaaaaaaaaaaaaaaaaaaaaaaaaaaaaaaaaaaaaaaaaa" false = 0 :=
  ⟨name_likelihood_zero_on_degenerate_text "" true (Or.inl rfl),
   name_likelihood_zero_on_degenerate_text
     "aaaaaaaaaaaaaaaaaaaaaaaaaaaaaaaaaaaaaaaaaaaaaaaaaaa" false
     (Or.inr (by decide))⟩

/-- C3: a first pass with 0 confirmed professors among 25 records, under
the budget (25, 3), makes the adaptive controller widen to
should_adjust=true, new_max_links=50, new_max_pages=5. -/
theorem zero_hits_widen_params (results : List ResultRecord)
    (h0 : (results.filter (fun r => r.isProfessorPage == "Yes")).length = 0)
    (_h25 : results.length = 25) :
    analyze_results_and_adjust_params results 25 3 =
      { should_adjust := true, new_max_links := 50, new_max_pages := 5 } := by
  unfold analyze_results_and_adjust_params
  simp [h0]

/-- Witness for C3: 25 explicit non-professor records. -/
theorem zero_hits_widen_params_witness :
    ((List.replicate 25 recordNo).filter (fun r => r.isProfessorPage == "Yes")).length = 0
      ∧ (List.replicate 25 recordNo).length = 25
      ∧ analyze_results_and_adjust_params (List.replicate 25 recordNo) 25 3 =
          { should_adjust := true, new_max_links := 50, new_max_pages := 5 } :=
  ⟨by decide, by decide, zero_hits_widen_params _ (by decide) (by decide)⟩

/-- C8, counterexample: the claim asserts the controller never shrinks
the budget, for every current budget.  With current_max_links = 120 and
an empty result list the zero-hits branch fires and caps the new link
budget at 100 < 120. -/
theorem adjust_params_can_shrink_cex :
    (analyze_results_and_adjust_params [] 120 3).new_max_links = 100
      ∧ ¬ (120 ≤ (analyze_results_and_adjust_params [] 120 3).new_max_links) := by
  constructor <;> decide

/-- C8, amended: whenever the current budget lies within the widening
caps of the controller's branches (current_max_links ≤ 80 and
current_max_pages ≤ 6), the adjustment never shrinks it:
new_max_links ∈ [current_max_links, 100] and
new_max_pages ∈ [current_max_pages, 8], whether or not should_adjust is
true. -/
theorem adjust_params_monotone_amended (results : List ResultRecord)
    (current_max_links current_max_pages : Nat)
    (hL : current_max_links ≤ 80) (hP : current_max_pages ≤ 6) :
    current_max_links
        ≤ (analyze_results_and_adjust_params results current_max_links
            current_max_pages).new_max_links
      ∧ (analyze_results_and_adjust_params results current_max_links
            current_max_pages).new_max_links ≤ 100
      ∧ current_max_pages
          ≤ (analyze_results_and_adjust_params results current_max_links
              current_max_pages).new_max_pages
      ∧ (analyze_results_and_adjust_params results current_max_links
            current_max_pages).new_max_pages ≤ 8 := by
  refine ⟨?_, ?_, ?_, ?_⟩ <;>
      (simp only [analyze_results_and_adjust_params]; repeat' split) <;>
    simp <;> omega

/-- Witness for C8 (amended) at the in-range budget (25, 3) and an empty
result list. -/
theorem adjust_params_monotone_amended_witness :
    (25 ≤ 80 ∧ 3 ≤ 6)
      ∧ (25 ≤ (analyze_results_and_adjust_params [] 25 3).new_max_links
          ∧ (analyze_results_and_adjust_params [] 25 3).new_max_links ≤ 100
          ∧ 3 ≤ (analyze_results_and_adjust_params [] 25 3).new_max_pages
          ∧ (analyze_results_and_adjust_params [] 25 3).new_max_pages ≤ 8) :=
  ⟨⟨by decide, by decide⟩, adjust_params_monotone_amended [] 25 3 (by decide) (by decide)⟩

/-- C6: for every page characterization, pagination characterization and
professor-link density, the recommended budget satisfies
max_links ∈ [10, 100] and max_pages ∈ [1, 10], by the final safety
clamp. -/
theorem parameter_recommendations_bounds (page_analysis : PageAnalysis)
    (pagination_info : PaginationInfo) (professor_density : ℚ) :
    10 ≤ (generate_parameter_recommendations page_analysis pagination_info
            professor_density).max_links
      ∧ (generate_parameter_recommendations page_analysis pagination_info
            professor_density).max_links ≤ 100
      ∧ 1 ≤ (generate_parameter_recommendations page_analysis pagination_info
            professor_density).max_pages
      ∧ (generate_parameter_recommendations page_analysis pagination_info
            professor_density).max_pages ≤ 10 := by
  simp only [generate_parameter_recommendations]
  exact ⟨Nat.le_max_left _ _, max_le (by norm_num) (min_le_left _ _),
    Nat.le_max_left _ _, max_le (by norm_num) (min_le_left _ _)⟩

theorem crawlLoop_fetched_length (web : String → Option PageModel)
    (uj : String → String → String) (fp : Bool) (mp : Nat)
    (toVisit visited : List String) (collected : List (String × ℚ))
    (pc : Nat) (fetched : List String) :
    (crawlLoop web uj fp mp toVisit visited collected pc fetched).fetched.length
      ≤ fetched.length + (mp - pc) := by
  induction toVisit, visited, collected, pc, fetched using crawlLoop.induct web uj fp mp with
  | case1 visited collected pc fetched => simp [crawlLoop]
  | case2 current rest visited collected pc fetched h hmem ih =>
    rw [crawlLoop]; simp only [dif_pos h, if_pos hmem]; omega
  | case3 current rest visited collected pc fetched h hmem hweb ih =>
    rw [crawlLoop]; simp only [dif_pos h, if_neg hmem, hweb]; omega
  | case4 current rest visited collected pc fetched h hmem page hweb ih =>
    rw [crawlLoop]; simp only [dif_pos h, if_neg hmem, hweb]
    have := ih
    simp only [List.length_append, List.length_cons, List.length_nil] at this ⊢
    omega
  | case5 current rest visited collected pc fetched h =>
    rw [crawlLoop]; simp only [dif_neg h]; omega

theorem crawlLoop_fetched_nodup (web : String → Option PageModel)
    (uj : String → String → String) (fp : Bool) (mp : Nat)
    (toVisit visited : List String) (collected : List (String × ℚ))
    (pc : Nat) (fetched : List String) :
    fetched.Nodup → (∀ x ∈ fetched, x ∈ visited) →
      (crawlLoop web uj fp mp toVisit visited collected pc fetched).fetched.Nodup := by
  induction toVisit, visited, collected, pc, fetched using crawlLoop.induct web uj fp mp with
  | case1 visited collected pc fetched =>
    intro hnd _
    rw [crawlLoop]; exact hnd
  | case2 current rest visited collected pc fetched h hmem ih =>
    intro hnd hsub
    rw [crawlLoop]; simp only [dif_pos h, if_pos hmem]; exact ih hnd hsub
  | case3 current rest visited collected pc fetched h hmem hweb ih =>
    intro hnd hsub
    rw [crawlLoop]; simp only [dif_pos h, if_neg hmem, hweb]
    exact ih hnd (fun x hx => List.mem_cons_of_mem _ (hsub x hx))
  | case4 current rest visited collected pc fetched h hmem page hweb ih =>
    intro hnd hsub
    rw [crawlLoop]; simp only [dif_pos h, if_neg hmem, hweb]
    refine ih ?_ ?_
    · simp only [List.nodup_append, List.nodup_cons, List.nodup_nil]
      refine ⟨hnd, ⟨by simp, by simp⟩, ?_⟩
      intro x hx
      simp only [List.mem_singleton]
      intro hxc
      exact hmem (hxc ▸ hsub x hx)
    · intro x hx
      rcases List.mem_append.mp hx with hx | hx
      · exact List.mem_cons_of_mem _ (hsub x hx)
      · simp only [List.mem_singleton] at hx
        exact hx ▸ List.mem_cons_self _ _
  | case5 current rest visited collected pc fetched h =>
    intro hnd _
    rw [crawlLoop]; simp only [dif_neg h]; exact hnd

theorem dedupLinks_eq_map_fst :
    ∀ (l : List (String × ℚ)) (seen : List String),
      dedupLinks l seen = (dedupPairs l seen).map Prod.fst
  | [], _ => rfl
  | (link, score) :: rest, seen => by
    by_cases hm : link ∈ seen
    · simp only [dedupLinks, dedupPairs, if_pos hm]
      exact dedupLinks_eq_map_fst rest seen
    · simp only [dedupLinks, dedupPairs, if_neg hm, List.map_cons]
      exact congrArg _ (dedupLinks_eq_map_fst rest (link :: seen))

theorem dedupPairs_mem :
    ∀ (l : List (String × ℚ)) (seen : List String),
      ∀ p ∈ dedupPairs l seen, p ∈ l ∧ p.1 ∉ seen
  | [], _ => by simp [dedupPairs]
  | (link, score) :: rest, seen => by
    by_cases hm : link ∈ seen
    · simp only [dedupPairs, if_pos hm]
      intro p hp
      rcases dedupPairs_mem rest seen p hp with ⟨h1, h2⟩
      exact ⟨List.mem_cons_of_mem _ h1, h2⟩
    · simp only [dedupPairs, if_neg hm]
      intro p hp
      rcases List.mem_cons.mp hp with rfl | hp'
      · exact ⟨List.mem_cons_self _ _, hm⟩
      · rcases dedupPairs_mem rest (link :: seen) p hp' with ⟨h1, h2⟩
        exact ⟨List.mem_cons_of_mem _ h1, fun hc => h2 (List.mem_cons_of_mem _ hc)⟩

theorem dedupPairs_fst_nodup :
    ∀ (l : List (String × ℚ)) (seen : List String),
      ((dedupPairs l seen).map Prod.fst).Nodup
  | [], _ => by simp [dedupPairs]
  | (link, score) :: rest, seen => by
    by_cases hm : link ∈ seen
    · simp only [dedupPairs, if_pos hm]
      exact dedupPairs_fst_nodup rest seen
    · simp only [dedupPairs, if_neg hm, List.map_cons, List.nodup_cons]
      refine ⟨?_, dedupPairs_fst_nodup rest (link :: seen)⟩
      intro hc
      rcases List.mem_map.mp hc with ⟨p, hp, hfst⟩
      exact (dedupPairs_mem rest (link :: seen) p hp).2 (hfst ▸ List.mem_cons_self _ _)

theorem dedupPairs_sublist :
    ∀ (l : List (String × ℚ)) (seen : List String), (dedupPairs l seen).Sublist l
  | [], _ => by simp [dedupPairs]
  | (link, score) :: rest, seen => by
    by_cases hm : link ∈ seen
    · simp only [dedupPairs, if_pos hm]
      exact (dedupPairs_sublist rest seen).cons _
    · simp only [dedupPairs, if_neg hm]
      exact (dedupPairs_sublist rest (link :: seen)).cons₂ _

theorem dedupPairs_max :
    ∀ (l : List (String × ℚ)) (seen : List String), l.Pairwise scoreGe →
      ∀ p ∈ dedupPairs l seen, ∀ q ∈ l, q.1 = p.1 → q.2 ≤ p.2
  | [], _ => by simp
  | (link, score) :: rest, seen => by
    intro hpw p hp q hq hq1
    have hpwr : rest.Pairwise scoreGe := (List.pairwise_cons.mp hpw).2
    by_cases hm : link ∈ seen
    · simp only [dedupPairs, if_pos hm] at hp
      rcases List.mem_cons.mp hq with rfl | hq'
      · have hnot := (dedupPairs_mem rest seen p hp).2
        have : p.1 ∈ seen := by rw [← hq1]; exact hm
        exact absurd this hnot
      · exact dedupPairs_max rest seen hpwr p hp q hq' hq1
    · simp only [dedupPairs, if_neg hm] at hp
      rcases List.mem_cons.mp hp with rfl | hp'
      · rcases List.mem_cons.mp hq with rfl | hq'
        · exact le_refl _
        · exact (List.pairwise_cons.mp hpw).1 q hq'
      · rcases List.mem_cons.mp hq with rfl | hq'
        · have hnot := (dedupPairs_mem rest (link :: seen) p hp').2
          have : p.1 ∈ link :: seen := by rw [← hq1]; exact List.mem_cons_self _ _
          exact absurd this hnot
        · exact dedupPairs_max rest (link :: seen) hpwr p hp' q hq' hq1

theorem crawl_fetches_at_most_max_pages (web : String → Option PageModel)
    (uj : String → String → String) (url : String) (max_pages : Nat) :
    (crawlRun web uj url true max_pages).fetched.length ≤ max_pages
      ∧ (crawlRun web uj url true max_pages).fetched.Nodup := by
  constructor
  · have h := crawlLoop_fetched_length web uj true max_pages [url] [] [] 0 []
    simpa [crawlRun] using h
  · exact crawlLoop_fetched_nodup web uj true max_pages [url] [] [] 0 []
      List.nodup_nil (by simp)

theorem get_all_links_dedup_invariant (web : String → Option PageModel)
    (uj : String → String → String) (url : String) (fp : Bool) (mp : Nat) :
    get_all_links web uj url fp mp
        = (dedupPairs
            (List.insertionSort scoreGe (crawlRun web uj url fp mp).collected) []).map Prod.fst
      ∧ (get_all_links web uj url fp mp).Nodup
      ∧ (∀ p ∈ dedupPairs
            (List.insertionSort scoreGe (crawlRun web uj url fp mp).collected) [],
          ∀ q ∈ (crawlRun web uj url fp mp).collected, q.1 = p.1 → q.2 ≤ p.2)
      ∧ (dedupPairs
            (List.insertionSort scoreGe (crawlRun web uj url fp mp).collected) []).Pairwise
          scoreGe := by
  have hsorted : (List.insertionSort scoreGe (crawlRun web uj url fp mp).collected).Pairwise
      scoreGe :=
    List.sorted_insertionSort scoreGe (crawlRun web uj url fp mp).collected
  have hperm := List.perm_insertionSort scoreGe (crawlRun web uj url fp mp).collected
  refine ⟨dedupLinks_eq_map_fst _ _, ?_, ?_, ?_⟩
  · unfold get_all_links
    rw [dedupLinks_eq_map_fst]
    exact dedupPairs_fst_nodup _ _
  · intro p hp q hq h1
    exact dedupPairs_max _ _ hsorted p hp q (hperm.mem_iff.mpr hq) h1
  · exact List.Pairwise.sublist (dedupPairs_sublist _ _) hsorted

/-- Witness for C5: the dedup invariant instantiated at a concrete crawl
whose every fetch fails. -/
theorem get_all_links_dedup_invariant_witness :
    get_all_links (fun _ => none) (fun _ h => h) "https://example.edu/people" true 3
        = (dedupPairs
            (List.insertionSort scoreGe
              (crawlRun (fun _ => none) (fun _ h => h) "https://example.edu/people" true
                3).collected) []).map Prod.fst
      ∧ (get_all_links (fun _ => none) (fun _ h => h) "https://example.edu/people" true 3).Nodup
      ∧ (∀ p ∈ dedupPairs
            (List.insertionSort scoreGe
              (crawlRun (fun _ => none) (fun _ h => h) "https://example.edu/people" true
                3).collected) [],
          ∀ q ∈ (crawlRun (fun _ => none) (fun _ h => h) "https://example.edu/people" true
              3).collected, q.1 = p.1 → q.2 ≤ p.2)
      ∧ (dedupPairs
            (List.insertionSort scoreGe
              (crawlRun (fun _ => none) (fun _ h => h) "https://example.edu/people" true
                3).collected) []).Pairwise scoreGe :=
  get_all_links_dedup_invariant (fun _ => none) (fun _ h => h) "https://example.edu/people"
    true 3

/-- Helper for C9: whatever record `process_link` emits carries
"Is Professor Page" = "Yes". -/
theorem process_link_yes (classify : String → Option (Bool × ProfInfo))
    (research : String → ResearchData) (link : String) (r : ResultRecord)
    (h : process_link classify research link = some r) :
    r.isProfessorPage = "Yes" := by
  unfold process_link at h
  rcases hcl : classify link with _ | ⟨b, info⟩ <;> rw [hcl] at h
  · exact absurd h (by simp)
  · cases b
    · exact absurd h (by simp)
    · simp only [if_pos] at h
      rcases Option.some.injEq .. ▸ h with rfl
      rfl

/-- C9: every record in the result set of `analyze_webpage_links` has
"Is Professor Page" = "Yes"; a link classified as non-professor, and a
link whose per-link processing raised an exception, are both dropped by
`process_link` returning `none` rather than emitted as "No" or error
records. -/
theorem results_only_professor_pages (web : String → Option PageModel)
    (uj : String → String → String)
    (classify : String → Option (Bool × ProfInfo)) (research : String → ResearchData)
    (start_url api_key : String) (max_links max_workers max_pages : Nat) :
    (∀ out, analyze_webpage_links web uj classify research start_url api_key max_links
          max_workers max_pages = Except.ok out →
        ∀ r ∈ out, r.isProfessorPage = "Yes")
      ∧ (∀ link, classify link = none → process_link classify research link = none)
      ∧ (∀ link info, classify link = some (false, info) →
          process_link classify research link = none) := by
  refine ⟨?_, ?_, ?_⟩
  · intro out hout r hr
    unfold analyze_webpage_links at hout
    by_cases hk : api_key = ""
    · rw [if_pos hk] at hout; exact absurd hout (by simp)
    · rw [if_neg hk] at hout
      unfold get_client at hout
      rw [if_neg hk] at hout
      by_cases hl : (get_all_links web uj start_url true max_pages).take max_links = []
      · rw [if_pos hl] at hout
        rcases Except.ok.injEq .. ▸ hout with rfl
        exact absurd hr (by simp)
      · rw [if_neg hl] at hout
        rcases Except.ok.injEq .. ▸ hout with rfl
        rcases List.mem_filterMap.mp hr with ⟨link, _, hsome⟩
        exact process_link_yes classify research link r hsome
  · intro link hcl
    unfold process_link
    rw [hcl]
  · intro link info hcl
    unfold process_link
    rw [hcl]
    rfl

/-- Witness for C9 at a concrete configuration: failing web oracle and a
classifier that always raises. -/
theorem results_only_professor_pages_witness :
    (∀ out, analyze_webpage_links (fun _ => none) (fun _ h => h) (fun _ => none)
          (fun _ => ⟨"", [], []⟩) "https://example.edu/people" "key" 50 5 3 = Except.ok out →
        ∀ r ∈ out, r.isProfessorPage = "Yes")
      ∧ (∀ link, (fun _ => none : String → Option (Bool × ProfInfo)) link = none →
          process_link (fun _ => none) (fun _ => ⟨"", [], []⟩) link = none)
      ∧ (∀ link info, (fun _ => none : String → Option (Bool × ProfInfo)) link
            = some (false, info) →
          process_link (fun _ => none) (fun _ => ⟨"", [], []⟩) link = none) :=
  results_only_professor_pages (fun _ => none) (fun _ h => h) (fun _ => none)
    (fun _ => ⟨"", [], []⟩) "https://example.edu/people" "key" 50 5 3

/-- C7, counterexample: the claim asserts that an empty seed URL makes
`analyze_webpage_links` raise immediately.  With a valid API key and an
empty seed URL no error is raised: the seed fetch fails inside the
collection loop, the failure is swallowed, and an empty result set is
returned. -/
theorem empty_seed_url_does_not_raise_cex :
    analyze_webpage_links (fun _ => none) (fun _ h => h) (fun _ => none)
        (fun _ => ⟨"", [], []⟩) "" "key" 50 5 3 = Except.ok [] := by
  have hlinks : get_all_links (fun _ => none) (fun _ h => h) "" true 3 = [] := by
    unfold get_all_links crawlRun
    rw [crawlLoop]
    simp only [List.mem_nil_iff, if_false, dif_pos (by norm_num : (0:Nat) < 3)]
    rw [crawlLoop]
    simp [dedupLinks]
  simp [analyze_webpage_links, get_client, hlinks]

/-- C7, amended: a missing/empty API key makes `analyze_webpage_links`
raise immediately and synchronously — for every web oracle, before any
crawling — never silently substituting a default; an empty seed URL,
however, is not validated: the analysis proceeds and yields an (empty)
result set instead of raising. -/
theorem config_error_handling_amended (web : String → Option PageModel)
    (uj : String → String → String)
    (classify : String → Option (Bool × ProfInfo)) (research : String → ResearchData)
    (start_url : String) (max_links max_workers max_pages : Nat) :
    analyze_webpage_links web uj classify research start_url "" max_links max_workers
        max_pages = Except.error "ValueError: 必须提供API密钥才能执行分析" := by
  simp [analyze_webpage_links]
